import Mathlib

/-!
Verification of `dm_tool.py` (a command-line controller for a display
manager over D-Bus).  The Python source is shallowly embedded: the
display-number allocation loop, the nested-seat launch control flow, the
seat-scoped D-Bus call dispatch, and the seat/session tree rendering are
translated into executable Lean definitions, and the behavioural claims
about them are settled as theorems.
-/

/-- Outcome of one `os.stat` probe of a lock file `/tmp/.X<n>-lock`:
the call succeeds (the marker exists), fails with `ENOENT` (no marker),
or fails with some other errno (e.g. `EACCES` = 13). -/
inductive ProbeOutcome where
  | statOk : ProbeOutcome
  | enoent : ProbeOutcome
  | oserr : Nat → ProbeOutcome
deriving DecidableEq, Repr

/-- Number of candidates probed by the source loop:
`for xephyr_display_number in range(65535 - 5000)`. -/
def lockRange : Nat := 65535 - 5000

/-- The allocation loop body of `DMTool.add_nested_seat`: starting at
candidate `s` with `f` candidates left, `os.stat` the lock file; an
`OSError` with `errno == ENOENT` breaks out of the loop with the current
candidate; a successful stat or an `OSError` with any other errno falls
through to the next candidate.  Returns `none` when the range is
exhausted (the `for`/`else` branch). -/
def allocLoop (probe : Nat → ProbeOutcome) : Nat → Nat → Option Nat
  | _, 0 => none
  | s, f + 1 =>
    match probe s with
    | ProbeOutcome.statOk => allocLoop probe (s + 1) f
    | ProbeOutcome.enoent => some s
    | ProbeOutcome.oserr _ => allocLoop probe (s + 1) f

/-- The list of candidates actually probed by `allocLoop`, in order. -/
def probeTrace (probe : Nat → ProbeOutcome) : Nat → Nat → List Nat
  | _, 0 => []
  | s, f + 1 =>
    match probe s with
    | ProbeOutcome.statOk => s :: probeTrace probe (s + 1) f
    | ProbeOutcome.enoent => [s]
    | ProbeOutcome.oserr _ => s :: probeTrace probe (s + 1) f

/-- The display-number allocation scan of `DMTool.add_nested_seat`
(lines 209-216 of the source): the loop over `range(65535 - 5000)`,
raising `StandardError` when no candidate breaks out. -/
def allocate (probe : Nat → ProbeOutcome) : Except String Nat :=
  match allocLoop probe 0 lockRange with
  | some n => Except.ok n
  | none => Except.error "Did not find a free X11 display number!"

theorem allocLoop_some_iff (probe : Nat → ProbeOutcome) :
    ∀ (f s k : Nat), allocLoop probe s f = some k ↔
      (s ≤ k ∧ k < s + f ∧ probe k = ProbeOutcome.enoent ∧
        ∀ m, s ≤ m → m < k → probe m ≠ ProbeOutcome.enoent)
  | 0, s, k => by
      simp only [allocLoop]
      constructor
      · intro h
        exact absurd h (by simp)
      · rintro ⟨h1, h2, -, -⟩
        omega
  | f + 1, s, k => by
      have ih := allocLoop_some_iff probe f (s + 1) k
      cases hp : probe s with
      | statOk =>
          simp only [allocLoop, hp]
          rw [ih]
          constructor
          · rintro ⟨h1, h2, h3, h4⟩
            refine ⟨by omega, by omega, h3, ?_⟩
            intro m hm1 hm2
            rcases Nat.eq_or_lt_of_le hm1 with he | hlt
            · rw [← he, hp]
              intro hc
              exact absurd hc (by simp)
            · exact h4 m hlt hm2
          · rintro ⟨h1, h2, h3, h4⟩
            have hsk : s ≠ k := by
              intro he
              rw [← he, hp] at h3
              exact absurd h3 (by simp)
            refine ⟨by omega, by omega, h3, ?_⟩
            intro m hm1 hm2
            exact h4 m (by omega) hm2
      | enoent =>
          simp only [allocLoop, hp, Option.some.injEq]
          constructor
          · rintro rfl
            refine ⟨Nat.le_refl _, by omega, hp, ?_⟩
            intro m hm1 hm2
            omega
          · rintro ⟨h1, h2, h3, h4⟩
            by_contra hne
            exact h4 s (Nat.le_refl _) (Nat.lt_of_le_of_ne h1 hne) hp
      | oserr e =>
          simp only [allocLoop, hp]
          rw [ih]
          constructor
          · rintro ⟨h1, h2, h3, h4⟩
            refine ⟨by omega, by omega, h3, ?_⟩
            intro m hm1 hm2
            rcases Nat.eq_or_lt_of_le hm1 with he | hlt
            · rw [← he, hp]
              intro hc
              exact absurd hc (by simp)
            · exact h4 m hlt hm2
          · rintro ⟨h1, h2, h3, h4⟩
            have hsk : s ≠ k := by
              intro he
              rw [← he, hp] at h3
              exact absurd h3 (by simp)
            refine ⟨by omega, by omega, h3, ?_⟩
            intro m hm1 hm2
            exact h4 m (by omega) hm2

theorem allocLoop_none_iff (probe : Nat → ProbeOutcome) :
    ∀ (f s : Nat), allocLoop probe s f = none ↔
      ∀ m, s ≤ m → m < s + f → probe m ≠ ProbeOutcome.enoent
  | 0, s => by
      simp only [allocLoop]
      constructor
      · intro _ m hm1 hm2
        omega
      · intro _
        trivial
  | f + 1, s => by
      have ih := allocLoop_none_iff probe f (s + 1)
      cases hp : probe s with
      | statOk =>
          simp only [allocLoop, hp]
          rw [ih]
          constructor
          · intro h m hm1 hm2
            rcases Nat.eq_or_lt_of_le hm1 with he | hlt
            · rw [← he, hp]
              intro hc
              exact absurd hc (by simp)
            · exact h m hlt (by omega)
          · intro h m hm1 hm2
            exact h m (by omega) (by omega)
      | enoent =>
          simp only [allocLoop, hp]
          constructor
          · intro h
            exact absurd h (by simp)
          · intro h
            exact absurd hp (h s (Nat.le_refl _) (by omega))
      | oserr e =>
          simp only [allocLoop, hp]
          rw [ih]
          constructor
          · intro h m hm1 hm2
            rcases Nat.eq_or_lt_of_le hm1 with he | hlt
            · rw [← he, hp]
              intro hc
              exact absurd hc (by simp)
            · exact h m hlt (by omega)
          · intro h m hm1 hm2
            exact h m (by omega) (by omega)

theorem probeTrace_of_some (probe : Nat → ProbeOutcome) :
    ∀ (f s k : Nat), allocLoop probe s f = some k →
      probeTrace probe s f = List.range' s (k + 1 - s)
  | 0, s, k => by
      intro h
      exact absurd h (by simp [allocLoop])
  | f + 1, s, k => by
      intro h
      have hspec := (allocLoop_some_iff probe (f + 1) s k).mp h
      cases hp : probe s with
      | statOk =>
          simp only [allocLoop, hp] at h
          have ih := probeTrace_of_some probe f (s + 1) k h
          have hsk : s ≠ k := by
            intro he
            rw [← he, hp] at hspec
            exact absurd hspec.2.2.1 (by simp)
          have hle : s ≤ k := hspec.1
          have h1 : k + 1 - s = (k + 1 - (s + 1)) + 1 := by omega
          simp only [probeTrace, hp, ih, h1, List.range'_succ]
      | enoent =>
          simp only [allocLoop, hp, Option.some.injEq] at h
          subst h
          simp only [probeTrace, hp]
          have h1 : s + 1 - s = 0 + 1 := by omega
          rw [h1, List.range'_succ]
          simp
      | oserr e =>
          simp only [allocLoop, hp] at h
          have ih := probeTrace_of_some probe f (s + 1) k h
          have hsk : s ≠ k := by
            intro he
            rw [← he, hp] at hspec
            exact absurd hspec.2.2.1 (by simp)
          have hle : s ≤ k := hspec.1
          have h1 : k + 1 - s = (k + 1 - (s + 1)) + 1 := by omega
          simp only [probeTrace, hp, ih, h1, List.range'_succ]

theorem probeTrace_of_none (probe : Nat → ProbeOutcome) :
    ∀ (f s : Nat), allocLoop probe s f = none →
      probeTrace probe s f = List.range' s f
  | 0, s => by
      intro _
      rfl
  | f + 1, s => by
      intro h
      cases hp : probe s with
      | statOk =>
          simp only [allocLoop, hp] at h
          simp only [probeTrace, hp, probeTrace_of_none probe f (s + 1) h,
            List.range'_succ]
      | enoent =>
          simp only [allocLoop, hp] at h
          exact absurd h (by simp)
      | oserr e =>
          simp only [allocLoop, hp] at h
          simp only [probeTrace, hp, probeTrace_of_none probe f (s + 1) h,
            List.range'_succ]

/-- Full characterisation of the allocation scan: it returns `ok k` iff
`k` is in range, the probe at `k` failed with `ENOENT`, and no earlier
candidate probed `ENOENT` (whatever else happened there); it fails iff
no candidate in the range probes `ENOENT`. -/
theorem allocate_ok_iff (probe : Nat → ProbeOutcome) (k : Nat) :
    allocate probe = Except.ok k ↔
      (k < lockRange ∧ probe k = ProbeOutcome.enoent ∧
        ∀ m, m < k → probe m ≠ ProbeOutcome.enoent) := by
  unfold allocate
  cases halloc : allocLoop probe 0 lockRange with
  | some n =>
      have h := (allocLoop_some_iff probe lockRange 0 n).mp halloc
      simp only [Except.ok.injEq]
      constructor
      · rintro rfl
        exact ⟨by omega, h.2.2.1, fun m hm => h.2.2.2 m (Nat.zero_le _) hm⟩
      · rintro ⟨h1, h2, h3⟩
        by_contra hne
        rcases Nat.lt_or_ge n k with hlt | hge
        · exact h3 n hlt h.2.2.1
        · have hlt : k < n := Nat.lt_of_le_of_ne hge (fun e => hne e.symm)
          exact h.2.2.2 k (Nat.zero_le _) hlt h2
  | none =>
      have h := (allocLoop_none_iff probe lockRange 0).mp halloc
      simp only []
      constructor
      · intro hc
        exact absurd hc (by simp)
      · rintro ⟨h1, h2, -⟩
        exact absurd h2 (h k (Nat.zero_le _) (by omega))

theorem allocate_error_iff (probe : Nat → ProbeOutcome) (e : String) :
    allocate probe = Except.error e ↔
      (e = "Did not find a free X11 display number!" ∧
        ∀ n, n < lockRange → probe n ≠ ProbeOutcome.enoent) := by
  unfold allocate
  cases halloc : allocLoop probe 0 lockRange with
  | some n =>
      have h := (allocLoop_some_iff probe lockRange 0 n).mp halloc
      constructor
      · intro hc
        exact absurd hc (by simp)
      · rintro ⟨-, hall⟩
        exact absurd h.2.2.1 (hall n (by omega))
  | none =>
      have h := (allocLoop_none_iff probe lockRange 0).mp halloc
      simp only [Except.error.injEq]
      constructor
      · rintro rfl
        exact ⟨rfl, fun n hn => h n (Nat.zero_le _) (by omega)⟩
      · rintro ⟨rfl, -⟩
        rfl

/-- Concrete probe used to refute C1: a permission error (`EACCES` = 13)
at candidate 0, no marker at candidate 1. -/
def permSkipProbe : Nat → ProbeOutcome :=
  fun n => if n == 0 then ProbeOutcome.oserr 13 else
    if n == 1 then ProbeOutcome.enoent else ProbeOutcome.statOk

/-- C1 counterexample: a permission error while stat-ing the candidate-0
lock marker does NOT make the operation fail; the loop silently skips
candidate 0 and the scan succeeds at candidate 1, contradicting the
claim that any probe outcome other than "marker absent" is fatal. -/
theorem C1_counterexample :
    permSkipProbe 0 = ProbeOutcome.oserr 13 ∧
    allocate permSkipProbe = Except.ok 1 ∧
    ∀ e, allocate permSkipProbe ≠ Except.error e := by
  have h : allocate permSkipProbe = Except.ok 1 := rfl
  refine ⟨rfl, h, ?_⟩
  intro e hc
  rw [h] at hc
  exact absurd hc (by simp)

/-- C1 (amended): "marker absent" (`ENOENT`) is indeed the only probe
outcome that terminates the scan with that number, but every other
probe outcome — marker present, a permission error, or any other
`OSError` — makes the loop silently skip that candidate and continue;
the operation fails only when no candidate in the range probes
`ENOENT`. -/
theorem C1_enoent_only_success (probe : Nat → ProbeOutcome) (k : Nat)
    (h : allocate probe = Except.ok k) :
    probe k = ProbeOutcome.enoent ∧
      (∀ m, m < k → probe m ≠ ProbeOutcome.enoent) ∧
      (∀ e, allocate probe = Except.error e →
        ∀ n, n < lockRange → probe n ≠ ProbeOutcome.enoent) := by
  have hspec := (allocate_ok_iff probe k).mp h
  refine ⟨hspec.2.1, hspec.2.2, ?_⟩
  intro e he
  exact ((allocate_error_iff probe e).mp he).2

/-- C1 witness: the amended theorem applied to the concrete probe with a
permission error at 0 and a free slot at 1. -/
theorem C1_witness : permSkipProbe 1 = ProbeOutcome.enoent :=
  (C1_enoent_only_success permSkipProbe 1 rfl).1

/-- State of the lock-marker namespace: `markers n = true` means the
lock file `/tmp/.X<n>-lock` exists, so `os.stat` succeeds; otherwise
`os.stat` fails with `ENOENT`. -/
def probeOfMarkers (markers : Nat → Bool) : Nat → ProbeOutcome :=
  fun n => if markers n then ProbeOutcome.statOk else ProbeOutcome.enoent

theorem probeOfMarkers_ne_enoent_iff (markers : Nat → Bool) (n : Nat) :
    probeOfMarkers markers n ≠ ProbeOutcome.enoent ↔ markers n = true := by
  unfold probeOfMarkers
  cases hm : markers n <;> simp [hm]

/-- C5: when some candidate in the probed range has no marker, the scan
returns the lowest marker-free number, probing `0, 1, ..., n` in
increasing order. -/
theorem C5_lowest_free (markers : Nat → Bool) (n : Nat)
    (hlt : n < lockRange) (hfree : markers n = false)
    (hbelow : ∀ m, m < n → markers m = true) :
    allocate (probeOfMarkers markers) = Except.ok n ∧
    probeTrace (probeOfMarkers markers) 0 lockRange = List.range (n + 1) := by
  have hok : allocate (probeOfMarkers markers) = Except.ok n := by
    rw [allocate_ok_iff]
    refine ⟨hlt, by simp [probeOfMarkers, hfree], ?_⟩
    intro m hm
    exact (probeOfMarkers_ne_enoent_iff markers m).mpr (hbelow m hm)
  refine ⟨hok, ?_⟩
  have hloop : allocLoop (probeOfMarkers markers) 0 lockRange = some n := by
    unfold allocate at hok
    cases halloc : allocLoop (probeOfMarkers markers) 0 lockRange with
    | some m =>
        rw [halloc] at hok
        simp only [Except.ok.injEq] at hok
        rw [hok]
    | none =>
        rw [halloc] at hok
        exact absurd hok (by simp)
  rw [probeTrace_of_some (probeOfMarkers markers) lockRange 0 n hloop,
    List.range_eq_range']
  simp

/-- Marker state with lock files at exactly 0, 1 and 2. -/
def markersUpTo3 : Nat → Bool := fun n => n < 3

/-- C5 witness: with markers at exactly 0, 1, 2 the scan returns 3,
having probed 0, 1, 2, 3 in order. -/
theorem C5_witness :
    allocate (probeOfMarkers markersUpTo3) = Except.ok 3 ∧
    probeTrace (probeOfMarkers markersUpTo3) 0 lockRange = List.range 4 :=
  C5_lowest_free markersUpTo3 3 (by decide) (by decide)
    (by decide)

/-- C10: the candidate pool is exactly `0 .. 65535 - 5000 - 1`
(i.e. 0 through 60534); the exhaustion error is raised iff every
candidate in that range has its marker present, in which case all 60535
candidates were probed in increasing order; success always lands on an
in-range, marker-free number. -/
theorem C10_probe_range (markers : Nat → Bool) :
    lockRange = 60535 ∧
    (allocate (probeOfMarkers markers) =
        Except.error "Did not find a free X11 display number!" ↔
      ∀ n, n < lockRange → markers n = true) ∧
    (∀ k, allocate (probeOfMarkers markers) = Except.ok k →
      k < lockRange ∧ markers k = false) ∧
    ((∀ n, n < lockRange → markers n = true) →
      probeTrace (probeOfMarkers markers) 0 lockRange =
        List.range lockRange) := by
  have herr : ∀ e, allocate (probeOfMarkers markers) = Except.error e ↔
      (e = "Did not find a free X11 display number!" ∧
        ∀ n, n < lockRange → markers n = true) := by
    intro e
    rw [allocate_error_iff]
    constructor
    · rintro ⟨rfl, h⟩
      exact ⟨rfl, fun n hn =>
        (probeOfMarkers_ne_enoent_iff markers n).mp (h n hn)⟩
    · rintro ⟨rfl, h⟩
      exact ⟨rfl, fun n hn =>
        (probeOfMarkers_ne_enoent_iff markers n).mpr (h n hn)⟩
  refine ⟨rfl, ?_, ?_, ?_⟩
  · rw [herr "Did not find a free X11 display number!"]
    simp
  · intro k hk
    have h := (allocate_ok_iff (probeOfMarkers markers) k).mp hk
    refine ⟨h.1, ?_⟩
    have := h.2.1
    unfold probeOfMarkers at this
    cases hm : markers k
    · rfl
    · rw [hm] at this
      exact absurd this (by simp)
  · intro hall
    have hnone : allocLoop (probeOfMarkers markers) 0 lockRange = none := by
      rw [allocLoop_none_iff]
      intro m hm1 hm2
      exact (probeOfMarkers_ne_enoent_iff markers m).mpr
        (hall m (by omega))
    rw [probeTrace_of_none (probeOfMarkers markers) lockRange 0 hnone,
      List.range_eq_range']

/-- C10 witness: with every marker present the scan raises the
exhaustion error after probing all of `0 .. 60534`. -/
theorem C10_witness :
    allocate (probeOfMarkers (fun _ => true)) =
        Except.error "Did not find a free X11 display number!" ∧
      probeTrace (probeOfMarkers (fun _ => true)) 0 lockRange =
        List.range lockRange := by
  have h := C10_probe_range (fun _ => true)
  exact ⟨(h.2.1).mpr (fun n _ => rfl), h.2.2.2 (fun n _ => rfl)⟩

/-- Behaviour of the forked Xephyr child as observed by the parent:
either it exits before delivering `SIGUSR1` (so `os.waitpid` returns
normally), or it signals readiness (so `os.waitpid` fails with `EINTR`
and the `SIGUSR1` handler runs). -/
inductive ChildBehavior where
  | exitsBeforeSignal : ChildBehavior
  | signalsReady : ChildBehavior
deriving DecidableEq, Repr

/-- Disposition of the process-wide `SIGUSR1` signal. -/
inductive SigDisposition where
  | dfl : SigDisposition
  | handler : SigDisposition
  | ign : SigDisposition
deriving DecidableEq, Repr

/-- Environment of one `DMTool.add_nested_seat` invocation: the lock
file probe, the child behaviour, and the result of the
`AddLocalXSeat` D-Bus registration call for a given display number. -/
structure LaunchEnv where
  probe : Nat → ProbeOutcome
  child : ChildBehavior
  register : Nat → Except String String

/-- Observable outcome of one `DMTool.add_nested_seat` invocation. -/
structure LaunchResult where
  probed : List Nat
  display : Option Nat
  cmd : List String
  sigusr1After : SigDisposition
  childFdsClosed : Bool
  registrationAttempted : Bool
  childKilled : Bool
  childRunningAfter : Bool
  result : Except String String

/-- Control flow of `DMTool.add_nested_seat` (lines 195-252 of the
source), under Python 2 semantics for `StandardError`:
1. run the allocation scan (always — the passthrough `xephyr_args` are
   never inspected); on exhaustion raise before touching the signal
   disposition;
2. install the `SIGUSR1` handler (never restored afterwards);
3. fork; the child closes fds 0..1023, sets `SIGUSR1` to `SIG_IGN` on
   its own side and execs `['Xephyr', ':N'] + xephyr_args`;
4. wait: if the child exits before signalling, `result` is unbound and
   the `UnboundLocalError` handler raises `StandardError('Xephyr launch
   failed')` with no registration attempted;
5. on `SIGUSR1`, the handler calls `AddLocalXSeat`; on success its
   value is returned; on failure the handler kills the child with
   `SIGQUIT` and raises `StandardError('Unable to add seat: ...')`. -/
def add_nested_seat (env : LaunchEnv) (xephyr_args : List String) :
    LaunchResult :=
  let probed := probeTrace env.probe 0 lockRange
  match allocate env.probe with
  | Except.error msg =>
      { probed := probed, display := none, cmd := [],
        sigusr1After := SigDisposition.dfl, childFdsClosed := false,
        registrationAttempted := false, childKilled := false,
        childRunningAfter := false, result := Except.error msg }
  | Except.ok n =>
      let cmd := "Xephyr" :: (":" ++ toString n) :: xephyr_args
      match env.child with
      | ChildBehavior.exitsBeforeSignal =>
          { probed := probed, display := some n, cmd := cmd,
            sigusr1After := SigDisposition.handler, childFdsClosed := true,
            registrationAttempted := false, childKilled := false,
            childRunningAfter := false,
            result := Except.error "Xephyr launch failed" }
      | ChildBehavior.signalsReady =>
          match env.register n with
          | Except.ok v =>
              { probed := probed, display := some n, cmd := cmd,
                sigusr1After := SigDisposition.handler,
                childFdsClosed := true, registrationAttempted := true,
                childKilled := false, childRunningAfter := true,
                result := Except.ok v }
          | Except.error e =>
              { probed := probed, display := some n, cmd := cmd,
                sigusr1After := SigDisposition.handler,
                childFdsClosed := true, registrationAttempted := true,
                childKilled := true, childRunningAfter := false,
                result := Except.error ("Unable to add seat: " ++ e) }

/-- C2: when the child signals readiness but the `AddLocalXSeat`
registration call fails, the child is killed with `SIGQUIT`, the
operation raises an error carrying the registration failure, and no
partial success is returned (the child is not left running). -/
theorem C2_registration_rollback (env : LaunchEnv) (args : List String)
    (n : Nat) (e : String)
    (halloc : allocate env.probe = Except.ok n)
    (hchild : env.child = ChildBehavior.signalsReady)
    (hreg : env.register n = Except.error e) :
    (add_nested_seat env args).childKilled = true ∧
    (add_nested_seat env args).childRunningAfter = false ∧
    (add_nested_seat env args).registrationAttempted = true ∧
    (add_nested_seat env args).result =
      Except.error ("Unable to add seat: " ++ e) := by
  simp [add_nested_seat, halloc, hchild, hreg]

/-- Launch environment where every display is free, the child signals
readiness and the registration call fails. -/
def cEnvRegFail : LaunchEnv :=
  { probe := fun _ => ProbeOutcome.enoent,
    child := ChildBehavior.signalsReady,
    register := fun _ => Except.error "Seat requires altering configuration" }

/-- C2 witness: the rollback theorem at a concrete failing
registration. -/
theorem C2_witness :
    (add_nested_seat cEnvRegFail []).childKilled = true ∧
    (add_nested_seat cEnvRegFail []).childRunningAfter = false ∧
    (add_nested_seat cEnvRegFail []).registrationAttempted = true ∧
    (add_nested_seat cEnvRegFail []).result =
      Except.error ("Unable to add seat: " ++
        "Seat requires altering configuration") :=
  C2_registration_rollback cEnvRegFail [] 0
    "Seat requires altering configuration" rfl rfl rfl

/-- C6: when the child exits before delivering `SIGUSR1`, the local
`result` variable is never bound, so the operation raises
`StandardError('Xephyr launch failed')` and the registration call is
never attempted. -/
theorem C6_spawn_failure (env : LaunchEnv) (args : List String) (n : Nat)
    (halloc : allocate env.probe = Except.ok n)
    (hchild : env.child = ChildBehavior.exitsBeforeSignal) :
    (add_nested_seat env args).result =
      Except.error "Xephyr launch failed" ∧
    (add_nested_seat env args).registrationAttempted = false ∧
    (add_nested_seat env args).childRunningAfter = false := by
  simp [add_nested_seat, halloc, hchild]

/-- Launch environment where every display is free and the child exits
without ever signalling readiness. -/
def cEnvSpawnFail : LaunchEnv :=
  { probe := fun _ => ProbeOutcome.enoent,
    child := ChildBehavior.exitsBeforeSignal,
    register := fun _ => Except.ok "/org/freedesktop/DisplayManager/Seat1" }

/-- C6 witness: the spawn-failure theorem at a concrete environment. -/
theorem C6_witness :
    (add_nested_seat cEnvSpawnFail []).result =
      Except.error "Xephyr launch failed" ∧
    (add_nested_seat cEnvSpawnFail []).registrationAttempted = false ∧
    (add_nested_seat cEnvSpawnFail []).childRunningAfter = false :=
  C6_spawn_failure cEnvSpawnFail [] 0 rfl rfl

/-- Launch environment where every display is free, the child signals
readiness and the registration call succeeds (the happy path). -/
def cEnvOk : LaunchEnv :=
  { probe := fun _ => ProbeOutcome.enoent,
    child := ChildBehavior.signalsReady,
    register := fun _ => Except.ok "/org/freedesktop/DisplayManager/Seat1" }

/-- C7 counterexample: on the successful exit path the `SIGUSR1`
disposition is still the temporary handler, not the prior default —
the source never calls `signal.signal` again to restore it. -/
theorem C7_counterexample :
    (add_nested_seat cEnvOk []).result =
      Except.ok "/org/freedesktop/DisplayManager/Seat1" ∧
    (add_nested_seat cEnvOk []).sigusr1After = SigDisposition.handler ∧
    SigDisposition.handler ≠ SigDisposition.dfl := by
  refine ⟨rfl, rfl, ?_⟩
  intro h
  exact absurd h (by simp)

/-- C7 (amended): the altered `SIGUSR1` disposition is never restored:
on every exit path reached after the handler is installed (success,
spawn failure, registration failure) the disposition at return is still
the handler; only the allocation-failure path, which raises before
`signal.signal` is called, leaves the default disposition.  Inherited
file descriptors are closed only by the forked child (before exec),
which also happens on exactly those paths. -/
theorem C7_no_restore (env : LaunchEnv) (args : List String) :
    (∀ n, allocate env.probe = Except.ok n →
      (add_nested_seat env args).sigusr1After = SigDisposition.handler ∧
      (add_nested_seat env args).childFdsClosed = true) ∧
    (∀ msg, allocate env.probe = Except.error msg →
      (add_nested_seat env args).sigusr1After = SigDisposition.dfl ∧
      (add_nested_seat env args).childFdsClosed = false) := by
  constructor
  · intro n halloc
    cases hc : env.child with
    | exitsBeforeSignal =>
        simp [add_nested_seat, halloc, hc]
    | signalsReady =>
        cases hr : env.register n with
        | ok v => simp [add_nested_seat, halloc, hc, hr]
        | error e => simp [add_nested_seat, halloc, hc, hr]
  · intro msg halloc
    simp [add_nested_seat, halloc]

/-- C7 witness: the amended theorem at the happy-path environment,
where allocation returns display 0. -/
theorem C7_witness :
    (add_nested_seat cEnvOk []).sigusr1After = SigDisposition.handler ∧
    (add_nested_seat cEnvOk []).childFdsClosed = true :=
  (C7_no_restore cEnvOk []).1 0 rfl

/-- Formalisation of the claim language "valid explicit display
designator" (spec section 4.4, transition 1): an argument of the form
`:N` with `N` a non-empty digit string.  The source never parses such
an argument; this definition exists only to state claim C4. -/
def specDisplayDesignator (s : String) : Bool :=
  match s.data with
  | [] => false
  | c :: rest => c == ':' && !rest.isEmpty && rest.all (fun d => d.isDigit)

/-- C4 counterexample: with the valid designator `:5` among the
passthrough arguments, the lock-marker scan still runs (candidate 0 is
probed), the allocated number 0 — not the designated 5 — is used, and
`:5` is merely appended to the Xephyr command line after `:0`. -/
theorem C4_counterexample :
    specDisplayDesignator ":5" = true ∧
    (add_nested_seat cEnvOk [":5"]).probed = [0] ∧
    (add_nested_seat cEnvOk [":5"]).display = some 0 ∧
    (add_nested_seat cEnvOk [":5"]).cmd = ["Xephyr", ":0", ":5"] := by
  refine ⟨by decide, rfl, rfl, rfl⟩

theorem probeTrace_head (probe : Nat → ProbeOutcome) (s f : Nat) :
    (probeTrace probe s (f + 1)).head? = some s := by
  cases hp : probe s <;> simp [probeTrace, hp]

theorem add_nested_seat_probed (env : LaunchEnv) (args : List String) :
    (add_nested_seat env args).probed = probeTrace env.probe 0 lockRange := by
  cases halloc : allocate env.probe with
  | error msg => simp [add_nested_seat, halloc]
  | ok n =>
      cases hc : env.child with
      | exitsBeforeSignal => simp [add_nested_seat, halloc, hc]
      | signalsReady =>
          cases hr : env.register n with
          | ok v => simp [add_nested_seat, halloc, hc, hr]
          | error e => simp [add_nested_seat, halloc, hc, hr]

/-- C4 (amended): `add_nested_seat` never inspects its passthrough
arguments for a display designator: even when a valid designator is
among them, the allocation scan is performed (candidate 0 is probed
first) and, when the scan succeeds, the scanned — not the designated —
number forms the `:N` argument, with the passthrough arguments merely
appended after it. -/
theorem C4_always_scans (env : LaunchEnv) (args : List String)
    (a : String) (hmem : a ∈ args)
    (hdes : specDisplayDesignator a = true) :
    (add_nested_seat env args).probed = probeTrace env.probe 0 lockRange ∧
    (add_nested_seat env args).probed.head? = some 0 ∧
    (∀ n, allocate env.probe = Except.ok n →
      (add_nested_seat env args).cmd =
        "Xephyr" :: (":" ++ toString n) :: args) := by
  refine ⟨add_nested_seat_probed env args, ?_, ?_⟩
  · rw [add_nested_seat_probed env args]
    have h60535 : lockRange = 60534 + 1 := rfl
    rw [h60535]
    exact probeTrace_head env.probe 0 60534
  · intro n halloc
    cases hc : env.child with
    | exitsBeforeSignal => simp [add_nested_seat, halloc, hc]
    | signalsReady =>
        cases hr : env.register n with
        | ok v => simp [add_nested_seat, halloc, hc, hr]
        | error e => simp [add_nested_seat, halloc, hc, hr]

/-- C4 witness: the amended theorem at a concrete environment with the
designator `:7` among the arguments: the scan still probes candidate 0
first and the scanned number 0 forms the display argument. -/
theorem C4_witness :
    (add_nested_seat cEnvOk [":7"]).probed.head? = some 0 ∧
    (add_nested_seat cEnvOk [":7"]).cmd =
      "Xephyr" :: (":" ++ toString 0) :: [":7"] :=
  ⟨(C4_always_scans cEnvOk [":7"] ":7" (by simp) (by decide)).2.1,
   (C4_always_scans cEnvOk [":7"] ":7" (by simp) (by decide)).2.2 0 rfl⟩

/-- The `DMTool._dbus_methods` dict: method name to proxy kind. -/
def dbusMethods : List (String × String) :=
  [("SwitchToGreeter", "seat"), ("SwitchToUser", "seat"),
   ("SwitchToGuest", "seat"), ("Lock", "seat"),
   ("AddLocalXSeat", "dm"), ("AddSeat", "dm")]

/-- The `DMTool._dbus_proxies` dict: proxy kind to (object path,
interface). -/
def dbusProxies : List (String × (String × String)) :=
  [("dm", ("/org/freedesktop/DisplayManager",
           "org.freedesktop.DisplayManager")),
   ("seat", ("/org/freedesktop/DisplayManager/Seat",
             "org.freedesktop.DisplayManager.Seat")),
   ("session", ("/org/freedesktop/DisplayManager/Session",
                "org.freedesktop.DisplayManager.Session"))]

/-- Message of the `StandardError` raised by `DMTool._dbus_call` when
`XDG_SEAT_PATH` is missing or malformed. -/
def seatPathError : String :=
  "Not running inside a display manager, XDG_SEAT_PATH is invalid or not defined"

/-- Environment of a `DMTool._dbus_call` invocation: the
`XDG_SEAT_PATH` process-environment value and the remote bus call
(object path, method name, positional arguments). -/
structure CallEnv where
  xdgSeatPath : Option String
  remote : String → String → List String → Except String String

/-- Observable outcome of a `DMTool._dbus_call` invocation:
whether the remote bus was reached, on which object path, and the
returned value or raised error. -/
structure CallOutcome where
  remoteCalled : Bool
  objectPath : Option String
  result : Except String String

/-- Control flow of `DMTool._dbus_call` (lines 102-121 of the source):
look up the method's proxy kind; for seat-scoped methods replace the
base object path by `XDG_SEAT_PATH`, but only when that value exists
and starts with the base path — otherwise raise `StandardError` before
any proxy is obtained or any remote method invoked.  An unknown method
name raises `KeyError` (modelled as an error result with no remote
call; every command of the tool uses a key present in the dict). -/
def dbus_call (env : CallEnv) (method : String) (args : List String) :
    CallOutcome :=
  match List.lookup method dbusMethods with
  | none =>
      { remoteCalled := false, objectPath := none,
        result := Except.error "KeyError" }
  | some mtype =>
      match List.lookup mtype dbusProxies with
      | none =>
          { remoteCalled := false, objectPath := none,
            result := Except.error "KeyError" }
      | some pair =>
          if mtype == "seat" then
            match env.xdgSeatPath with
            | none =>
                { remoteCalled := false, objectPath := none,
                  result := Except.error seatPathError }
            | some p =>
                if p.startsWith pair.1 then
                  { remoteCalled := true, objectPath := some p,
                    result := env.remote p method args }
                else
                  { remoteCalled := false, objectPath := none,
                    result := Except.error seatPathError }
          else
            { remoteCalled := true, objectPath := some pair.1,
              result := env.remote pair.1 method args }

/-- The `switch-to-greeter` command: `DMTool.switch_to_greeter`. -/
def switch_to_greeter (env : CallEnv) : CallOutcome :=
  dbus_call env "SwitchToGreeter" []

/-- The `switch-to-user` command: `DMTool.switch_to_user` (the missing
session becomes the empty string, as `session or ''` does). -/
def switch_to_user (env : CallEnv) (username : String)
    (session : Option String) : CallOutcome :=
  dbus_call env "SwitchToUser" [username, session.getD ""]

/-- The `switch-to-guest` command: `DMTool.switch_to_guest`. -/
def switch_to_guest (env : CallEnv) (session : Option String) :
    CallOutcome :=
  dbus_call env "SwitchToGuest" [session.getD ""]

/-- The `lock` command: `DMTool.lock`. -/
def lock (env : CallEnv) : CallOutcome :=
  dbus_call env "Lock" []

theorem dbus_call_seat_guard (env : CallEnv) (method : String)
    (args : List String)
    (hseat : List.lookup method dbusMethods = some "seat")
    (hbad : ∀ p, env.xdgSeatPath = some p →
      p.startsWith "/org/freedesktop/DisplayManager/Seat" = false) :
    (dbus_call env method args).remoteCalled = false ∧
    (dbus_call env method args).result = Except.error seatPathError := by
  unfold dbus_call
  rw [hseat]
  cases hp : env.xdgSeatPath with
  | none => simp [dbusProxies, List.lookup]
  | some p =>
      have hs := hbad p hp
      simp [dbusProxies, List.lookup, hs]

/-- C9: every seat-scoped command (`switch-to-greeter`,
`switch-to-user`, `switch-to-guest`, `lock`) fails with the
configuration error `StandardError('Not running inside a display
manager, XDG_SEAT_PATH is invalid or not defined')` and performs no
remote call at all when `XDG_SEAT_PATH` is absent or does not start
with the manager's seat path prefix; the single-pass control flow
contains no retry. -/
theorem C9_seat_scoped_config_error (env : CallEnv) (username : String)
    (session : Option String)
    (hbad : ∀ p, env.xdgSeatPath = some p →
      p.startsWith "/org/freedesktop/DisplayManager/Seat" = false) :
    ((switch_to_greeter env).remoteCalled = false ∧
      (switch_to_greeter env).result = Except.error seatPathError) ∧
    ((switch_to_user env username session).remoteCalled = false ∧
      (switch_to_user env username session).result =
        Except.error seatPathError) ∧
    ((switch_to_guest env session).remoteCalled = false ∧
      (switch_to_guest env session).result = Except.error seatPathError) ∧
    ((lock env).remoteCalled = false ∧
      (lock env).result = Except.error seatPathError) :=
  ⟨dbus_call_seat_guard env "SwitchToGreeter" [] rfl hbad,
   dbus_call_seat_guard env "SwitchToUser" [username, session.getD ""]
     rfl hbad,
   dbus_call_seat_guard env "SwitchToGuest" [session.getD ""] rfl hbad,
   dbus_call_seat_guard env "Lock" [] rfl hbad⟩

/-- Call environment with no `XDG_SEAT_PATH` set. -/
def cEnvNoSeatPath : CallEnv :=
  { xdgSeatPath := none,
    remote := fun _ _ _ => Except.ok "" }

/-- C9 witness: the configuration-error theorem with `XDG_SEAT_PATH`
absent. -/
theorem C9_witness :
    ((switch_to_greeter cEnvNoSeatPath).remoteCalled = false ∧
      (switch_to_greeter cEnvNoSeatPath).result =
        Except.error seatPathError) ∧
    ((switch_to_user cEnvNoSeatPath "alice" none).remoteCalled = false ∧
      (switch_to_user cEnvNoSeatPath "alice" none).result =
        Except.error seatPathError) ∧
    ((switch_to_guest cEnvNoSeatPath none).remoteCalled = false ∧
      (switch_to_guest cEnvNoSeatPath none).result =
        Except.error seatPathError) ∧
    ((lock cEnvNoSeatPath).remoteCalled = false ∧
      (lock cEnvNoSeatPath).result = Except.error seatPathError) :=
  C9_seat_scoped_config_error cEnvNoSeatPath "alice" none
    (fun p hp => by simp [cEnvNoSeatPath] at hp)

/-- Typed D-Bus property values as they reach `print_item`:
`dbus.String`, `dbus.Boolean`, other scalars (numbers),
`dbus.ObjectPath` (a `str` subclass distinct from `dbus.String`, so it
takes the default unquoted format), and arrays of object paths. -/
inductive DBusValue where
  | string : String → DBusValue
  | boolean : Bool → DBusValue
  | number : Int → DBusValue
  | objectPath : String → DBusValue
  | objectPathList : List String → DBusValue
deriving DecidableEq, Repr

/-- Python `str()` of a value under the default (unquoted) format of
the `FORMATS` table. -/
def dbusValueDefaultStr : DBusValue → String
  | DBusValue.string s => s
  | DBusValue.boolean b => if b then "1" else "0"
  | DBusValue.number n => toString n
  | DBusValue.objectPath p => p
  | DBusValue.objectPathList _ => "[]"

/-- The single-quote character used by the `dbus.String` format. -/
def quoteStr : String := String.singleton (Char.ofNat 39)

/-- The `print_item` helper (lines 59-61 of the source) with the
`FORMATS` table (lines 51-56): a `dbus.String` value is wrapped in
single quotes, a `dbus.Boolean` is printed as lowercase `true`/`false`,
and every other type uses the plain `key=value` format.  Returns the
printed line (without the trailing newline `print` adds). -/
def print_item (key : String) (value : DBusValue) (indent : Nat) :
    String :=
  match value with
  | DBusValue.string s =>
      String.mk (List.replicate indent ' ') ++ key ++ "=" ++
        quoteStr ++ s ++ quoteStr
  | DBusValue.boolean b =>
      String.mk (List.replicate indent ' ') ++ key ++ "=" ++
        (if b then "true" else "false")
  | v =>
      String.mk (List.replicate indent ' ') ++ key ++ "=" ++
        dbusValueDefaultStr v

/-- Code-point lexicographic comparison of character lists: the string
order Python `sorted` uses on `str` keys. -/
def charListLe : List Char → List Char → Bool
  | [], _ => true
  | _ :: _, [] => false
  | a :: as, b :: bs =>
      if a.toNat < b.toNat then true
      else if b.toNat < a.toNat then false
      else charListLe as bs

/-- Lexicographic string comparison by code point. -/
def strLe (a b : String) : Bool := charListLe a.data b.data

theorem charListLe_cons_iff (a b : Char) (as bs : List Char) :
    charListLe (a :: as) (b :: bs) = true ↔
      (a.toNat < b.toNat ∨
        (a.toNat = b.toNat ∧ charListLe as bs = true)) := by
  simp only [charListLe]
  rcases Nat.lt_trichotomy a.toNat b.toNat with h | h | h
  · rw [if_pos h]
    simp [h]
  · rw [if_neg (by omega), if_neg (by omega)]
    constructor
    · intro hr
      exact Or.inr ⟨h, hr⟩
    · rintro (hc | ⟨-, hr⟩)
      · omega
      · exact hr
  · rw [if_neg (by omega), if_pos h]
    constructor
    · intro hc
      exact absurd hc (by simp)
    · rintro (hc | ⟨hc, -⟩) <;> omega

theorem charListLe_total :
    ∀ (a b : List Char), charListLe a b = true ∨ charListLe b a = true
  | [], _ => Or.inl rfl
  | _ :: _, [] => Or.inr rfl
  | a :: as, b :: bs => by
      rw [charListLe_cons_iff, charListLe_cons_iff]
      rcases Nat.lt_trichotomy a.toNat b.toNat with h | h | h
      · exact Or.inl (Or.inl h)
      · rcases charListLe_total as bs with ih | ih
        · exact Or.inl (Or.inr ⟨h, ih⟩)
        · exact Or.inr (Or.inr ⟨h.symm, ih⟩)
      · exact Or.inr (Or.inl h)

theorem charListLe_trans :
    ∀ (a b c : List Char), charListLe a b = true →
      charListLe b c = true → charListLe a c = true
  | [], _, _ => fun _ _ => rfl
  | _ :: _, [], _ => fun h _ => absurd h (by simp [charListLe])
  | _ :: _, _ :: _, [] => fun _ h => absurd h (by simp [charListLe])
  | a :: as, b :: bs, c :: cs => by
      intro h1 h2
      rw [charListLe_cons_iff] at h1 h2 ⊢
      rcases h1 with h1 | ⟨h1e, h1r⟩ <;> rcases h2 with h2 | ⟨h2e, h2r⟩
      · exact Or.inl (by omega)
      · exact Or.inl (by omega)
      · exact Or.inl (by omega)
      · exact Or.inr ⟨by omega, charListLe_trans as bs cs h1r h2r⟩

/-- The `sorted(properties.items())` of the source: a stable sort of
the property bag by key (dict keys are unique, so the tuple comparison
Python performs never reaches the values). -/
def sortedItems (bag : List (String × DBusValue)) :
    List (String × DBusValue) :=
  List.insertionSort (fun a b => strLe a.1 b.1 = true) bag

/-- One node's property lines: iterate the key-sorted items, skip the
child-list key (`Sessions` for a seat, `Seat` for a session), and
`print_item` each remaining pair at the node's indent. -/
def renderProps (bag : List (String × DBusValue)) (skip : String)
    (indent : Nat) : List String :=
  ((sortedItems bag).filter (fun kv => kv.1 != skip)).map
    (fun kv => print_item kv.1 kv.2 indent)

theorem sortedItems_sorted (bag : List (String × DBusValue)) :
    List.Pairwise (fun a b => strLe a.1 b.1 = true) (sortedItems bag) := by
  haveI ht : IsTotal (String × DBusValue)
      (fun a b => strLe a.1 b.1 = true) :=
    ⟨fun a b => charListLe_total a.1.data b.1.data⟩
  haveI htr : IsTrans (String × DBusValue)
      (fun a b => strLe a.1 b.1 = true) :=
    ⟨fun a b c => charListLe_trans a.1.data b.1.data c.1.data⟩
  exact List.sorted_insertionSort _ bag

/-- C8: the property lines of a node are emitted for the key-sorted
filtered items, their key sequence is sorted (code-point
lexicographically, the order Python `sorted` uses), a string-typed
value is wrapped in quotes, and a boolean is rendered as lowercase
`true`/`false`. -/
theorem C8_sorted_and_formatted (bag : List (String × DBusValue))
    (skip key s : String) (b : Bool) (indent : Nat) :
    renderProps bag skip indent =
      ((sortedItems bag).filter (fun kv => kv.1 != skip)).map
        (fun kv => print_item kv.1 kv.2 indent) ∧
    List.Pairwise (fun a b : String => strLe a b = true)
      (((sortedItems bag).filter (fun kv => kv.1 != skip)).map
        Prod.fst) ∧
    print_item key (DBusValue.string s) indent =
      String.mk (List.replicate indent ' ') ++ key ++ "=" ++
        quoteStr ++ s ++ quoteStr ∧
    print_item key (DBusValue.boolean b) indent =
      String.mk (List.replicate indent ' ') ++ key ++ "=" ++
        (if b then "true" else "false") := by
  refine ⟨rfl, ?_, rfl, rfl⟩
  have h := (sortedItems_sorted bag).filter (fun kv => kv.1 != skip)
  exact List.pairwise_map.mpr h

/-- Suffix of `l` after the final occurrence of the separator `sep`,
or `none` when `sep` does not occur: the value of Python
`l.split(sep)[-1]` (for the separator-free tail). -/
def afterLastSep (sep : List Char) : List Char → Option (List Char)
  | [] => none
  | c :: rest =>
      match afterLastSep sep rest with
      | some t => some t
      | none =>
          if sep.isPrefixOf (c :: rest) then
            some ((c :: rest).drop sep.length)
          else none

/-- The `get_name_from_path` helper of `DMTool.list_seats`:
`path.split('/org/freedesktop/DisplayManager/')[-1]` — the tail after
the last separator occurrence, or the whole path when the separator
does not occur. -/
def get_name_from_path (p : String) : String :=
  match afterLastSep "/org/freedesktop/DisplayManager/".data p.data with
  | some t => String.mk t
  | none => p

/-- Remote bus state seen by `DMTool.list_seats`: the property bag
`GetAll` returns for each object path. -/
structure RemoteState where
  props : String → List (String × DBusValue)

/-- The manager's well-known object path. -/
def managerPath : String := "/org/freedesktop/DisplayManager"

/-- Extraction of a list-of-object-paths property
(`properties['Seats']`, `properties['Sessions']`).  Python raises
`KeyError` when the key is missing; the claims below concern states
where the key is present, and a missing or differently-typed key is
modelled as the empty list. -/
def getPathList (bag : List (String × DBusValue)) (key : String) :
    List String :=
  match List.lookup key bag with
  | some (DBusValue.objectPathList l) => l
  | _ => []

/-- The seat paths `list_seats` iterates: the manager's `Seats`
property, in exactly the order the remote returned it. -/
def seatsOf (rs : RemoteState) : List String :=
  getPathList (rs.props managerPath) "Seats"

/-- Lines printed for one session: its derived name at indent 2, then
its key-sorted properties (skipping `Seat`) at indent 4. -/
def sessionLines (rs : RemoteState) (spath : String) : List String :=
  ("  " ++ get_name_from_path spath) ::
    renderProps (rs.props spath) "Seat" 4

/-- Lines printed for one seat: its derived name, its key-sorted
properties (skipping `Sessions`) at indent 2, then its sessions in the
order the remote returned them. -/
def seatLines (rs : RemoteState) (seatPath : String) : List String :=
  get_name_from_path seatPath ::
    (renderProps (rs.props seatPath) "Sessions" 2 ++
      (getPathList (rs.props seatPath) "Sessions").flatMap (sessionLines rs))

/-- The newline each `print(..., file=output)` appends. -/
def nlStr : String := String.singleton (Char.ofNat 10)

/-- Python `.rstrip(chr(10))`: drop all trailing newlines. -/
def rstripNl (s : String) : String :=
  String.mk ((s.data.reverse.dropWhile (fun c => c == Char.ofNat 10)).reverse)

/-- `DMTool.list_seats` (lines 145-193 of the source): walk the seats
in the order the manager returned them (the source applies no sort to
`seats`), render each, join with newlines into the `StringIO` buffer
and return `output.getvalue().rstrip(chr(10))`. -/
def list_seats (rs : RemoteState) : String :=
  rstripNl (String.join
    (((seatsOf rs).flatMap (seatLines rs)).map (fun l => l ++ nlStr)))

/-- Rendering demanded by the spec sentence "extract its list of seat
ObjectPaths; sort them for deterministic output" — identical walk, but
with the seat paths sorted by path string before rendering.  Stated
from the spec's words, for comparison with `list_seats` above. -/
def list_seats_sortedSpec (rs : RemoteState) : String :=
  rstripNl (String.join
    ((((seatsOf rs).insertionSort (fun a b => strLe a b = true)).flatMap (seatLines rs)).map
      (fun l => l ++ nlStr)))

/-- Concrete remote state returning its two seats in reverse path
order, each with an empty session list. -/
def cRemote : RemoteState :=
  { props := fun p =>
      if p == managerPath then
        [("Seats", DBusValue.objectPathList
          ["/org/freedesktop/DisplayManager/Seat1",
           "/org/freedesktop/DisplayManager/Seat0"])]
      else if p == "/org/freedesktop/DisplayManager/Seat0" ||
          p == "/org/freedesktop/DisplayManager/Seat1" then
        [("Sessions", DBusValue.objectPathList [])]
      else [] }

/-- C3 counterexample: the remote returns `Seat1` before `Seat0`;
`list_seats` renders them in that remote order, while the walk the
spec describes (seats sorted by path string) renders `Seat0` first —
the source applies no sort to the seat list. -/
theorem C3_counterexample :
    list_seats cRemote = "Seat1" ++ nlStr ++ "Seat0" ∧
    list_seats_sortedSpec cRemote = "Seat0" ++ nlStr ++ "Seat1" ∧
    list_seats cRemote ≠ list_seats_sortedSpec cRemote := by
  refine ⟨by decide, by decide, by decide⟩

theorem string_foldl_append : ∀ (l : List String) (init : String),
    l.foldl (fun r s => r ++ s) init = init ++ String.join l
  | [], init => by
      simp [String.join, String.append_empty]
  | a :: t, init => by
      simp only [List.foldl_cons]
      rw [string_foldl_append t (init ++ a)]
      have hj : String.join (a :: t) = a ++ String.join t := by
        show (a :: t).foldl (fun r s => r ++ s) "" = a ++ String.join t
        simp only [List.foldl_cons]
        rw [string_foldl_append t ("" ++ a), String.empty_append]
      rw [hj, String.append_assoc]

theorem string_join_cons (x : String) (l : List String) :
    String.join (x :: l) = x ++ String.join l := by
  show (x :: l).foldl (fun r s => r ++ s) "" = x ++ String.join l
  simp only [List.foldl_cons]
  rw [string_foldl_append l ("" ++ x), String.empty_append]

theorem string_join_append (a b : List String) :
    String.join (a ++ b) = String.join a ++ String.join b := by
  show (a ++ b).foldl (fun r s => r ++ s) "" = _
  rw [List.foldl_append]
  exact string_foldl_append b _

theorem join_blocks (f : String → List String) :
    ∀ (l : List String),
      String.join ((l.flatMap f).map (fun x => x ++ nlStr)) =
        String.join (l.map (fun s =>
          String.join ((f s).map (fun x => x ++ nlStr))))
  | [] => rfl
  | a :: t => by
      simp only [List.flatMap_cons, List.map_append, List.map_cons]
      rw [string_join_append, join_blocks f t, string_join_cons]

/-- C3 (amended): `list_seats` renders the seat blocks in exactly the
order the manager returned the seat paths — the rendered buffer is the
concatenation of the per-seat blocks in remote-returned order, each
block headed by the seat's derived name; no sorting of seats happens
(only each node's properties are key-sorted, inside `renderProps`). -/
theorem C3_remote_order (rs : RemoteState) :
    list_seats rs = rstripNl (String.join ((seatsOf rs).map
      (fun s => String.join ((seatLines rs s).map (fun l => l ++ nlStr))))) ∧
    (seatsOf rs).map (fun s => (seatLines rs s).headD "") =
      (seatsOf rs).map get_name_from_path := by
  refine ⟨?_, rfl⟩
  unfold list_seats
  rw [join_blocks (seatLines rs) (seatsOf rs)]
